import Mathlib

/-!
Verification of the runner game's world-composition and physics core.

Shallow embedding of the player physics (src/character.ts), the world
manager (src/gameplay.ts, class MapHandler) and the per-tick scoring and
obstacle-landing passes of src/main.ts. JS numbers are modelled as exact
rationals; rendering-only side effects (sprite positioning, background
colour, labels) are omitted, and external queries (ground-surface lookup,
container local bounds, Math.random draws) are passed in as explicit
parameters.
-/

namespace RunningChicken

/-! ## Player physics (src/character.ts, createCharacter) -/

/-- Construction-time options of createCharacter that the physics uses. -/
structure CharacterConfig where
  jumpSpeed : ℚ
  gravity : ℚ
  playerRadius : ℚ
deriving DecidableEq

/-- Mutable player fields touched by jump/update. createCharacter always
initialises maxJumps := 2 and jumpsLeft := 2, so both are total here. -/
structure PlayerState where
  worldX : ℚ
  y : ℚ
  vy : ℚ
  onGround : Bool
  jumpsLeft : ℕ
  maxJumps : ℕ
  holdingJump : Bool
  jumpHoldTime : ℚ
  maxJumpHoldTime : ℚ
deriving DecidableEq

/-- Player.jump from character.ts. canJump is `onGround || jumpsLeft > 0`;
on success the code sets vy := -jumpSpeed and onGround := false, and then
tests `!this.onGround` — which always passes, because onGround was just
assigned false — so every successful jump decrements jumpsLeft
(Math.max(0, jumpsLeft-1) is truncated subtraction on ℕ). The fallback
branch for `jumpsLeft === undefined` never fires since createCharacter
initialises jumpsLeft. Returns (didJump, new state). -/
def Player.jump (cfg : CharacterConfig) (p : PlayerState) : Bool × PlayerState :=
  if p.onGround || decide (0 < p.jumpsLeft) then
    let p1 := { p with vy := -cfg.jumpSpeed, onGround := false }
    let p2 := if !p1.onGround then { p1 with jumpsLeft := p1.jumpsLeft - 1 } else p1
    (true, p2)
  else
    (false, p)

/-- Whether the reduced-gravity hold branch of Player.update is active:
`holdingJump && jumpHoldTime < maxJumpHoldTime && vy < 0`. -/
def Player.holdActive (p : PlayerState) : Prop :=
  p.holdingJump = true ∧ p.jumpHoldTime < p.maxJumpHoldTime ∧ p.vy < 0

instance (p : PlayerState) : Decidable (Player.holdActive p) := by
  unfold Player.holdActive; infer_instance

/-- The vertical velocity after the gravity step of Player.update:
45% gravity while the hold branch is active, full gravity otherwise. -/
def Player.integVy (cfg : CharacterConfig) (p : PlayerState) (dt : ℚ) : ℚ :=
  if Player.holdActive p then p.vy + (cfg.gravity * (45 / 100)) * dt
  else p.vy + cfg.gravity * dt

/-- Player.update from character.ts. surfaceY stands for the result of
`getGroundY(worldX)` (or the constructor's groundY when no callback is
installed). Applies gravity (reduced while holding), integrates y, then
snaps to groundTop := surfaceY - playerRadius only when the previous y was
strictly above groundTop, the new y is at/below it and vy >= 0; otherwise
onGround := false. Sprite repositioning is rendering-only and omitted. -/
def Player.update (cfg : CharacterConfig) (p : PlayerState) (dt surfaceY : ℚ) :
    PlayerState :=
  let vy1 := Player.integVy cfg p dt
  let jht1 := if Player.holdActive p then p.jumpHoldTime + dt else p.jumpHoldTime
  let prevY := p.y
  let y1 := p.y + vy1 * dt
  let groundTop := surfaceY - cfg.playerRadius
  if prevY < groundTop ∧ groundTop ≤ y1 ∧ 0 ≤ vy1 then
    { p with y := groundTop, vy := 0, onGround := true, jumpsLeft := p.maxJumps,
             jumpHoldTime := jht1 }
  else
    { p with y := y1, vy := vy1, onGround := false, jumpHoldTime := jht1 }

/-! ## World manager (src/gameplay.ts, class MapHandler) -/

/-- A registered pit, world coordinates ({x, width} entries of this.pits). -/
structure Pit where
  x : ℚ
  width : ℚ
deriving DecidableEq

/-- An obstacle/collider entry of this.obstacles. spriteY records the y at
which the Graphics hitbox was placed (the code reads obstacleTop from
o.sprite.y); isGround is the flag set on pattern ground strips and absent
(falsy) on hazard boxes and legacy random obstacles. -/
structure Obstacle where
  x : ℚ
  width : ℚ
  height : ℚ
  spriteY : ℚ
  isGround : Bool
deriving DecidableEq

/-- An entry of this.patterns, the placed-pattern span list. top and
playerYOffset are always written by addPattern, so they are total here. -/
structure PatternSpan where
  start : ℚ
  length : ℚ
  top : ℚ
  playerYOffset : ℚ
deriving DecidableEq

/-- A pit declared by a pattern, in pattern-local coordinates. -/
structure LocalPit where
  x : ℚ
  width : ℚ
deriving DecidableEq

/-- An obstacle declared by a pattern, in pattern-local coordinates. -/
structure LocalObstacle where
  x : ℚ
  width : ℚ
  height : ℚ
deriving DecidableEq

/-- The PatternData fields that MapHandler.addPattern consumes (the PIXI
container itself is opaque; its local bounds are passed separately). -/
structure PatternData where
  length : ℚ
  nextStartOffset : ℚ
  pits : List LocalPit
  obstacles : List LocalObstacle
  playerYOffset : Option ℚ
deriving DecidableEq

/-- Result of container.getLocalBounds(): local x and width. -/
structure Bounds where
  x : ℚ
  width : ℚ
deriving DecidableEq

/-- The MapHandler fields relevant to gameplay state (display containers,
label and debug flags are rendering-only and omitted). -/
structure MapState where
  scroll : ℚ
  speed : ℚ
  baseInitialSpeed : ℚ
  groundY : ℚ
  patternYOffset : ℚ
  groundThickness : ℚ
  WIDTH : ℚ
  HEIGHT : ℚ
  pits : List Pit
  obstacles : List Obstacle
  patterns : List PatternSpan
  allowRandomObstacles : Bool
deriving DecidableEq

namespace MapHandler

/-- The MapHandler constructor: groundY defaults to HEIGHT - 120,
patternYOffset to 0, initial speed to 200, groundThickness to 8; speed
starts at baseInitialSpeed and all lists start empty. -/
def init (WIDTH HEIGHT : ℚ) (groundY initialSpeed patternYOffset
    groundThickness : Option ℚ) : MapState :=
  { scroll := 0
    speed := initialSpeed.getD 200
    baseInitialSpeed := initialSpeed.getD 200
    groundY := groundY.getD (HEIGHT - 120)
    patternYOffset := patternYOffset.getD 0
    groundThickness := groundThickness.getD 8
    WIDTH := WIDTH
    HEIGHT := HEIGHT
    pits := []
    obstacles := []
    patterns := []
    allowRandomObstacles := true }

/-- MapHandler.addPattern. The factory is modelled as a function returning
Option PatternData, none standing for a throw; since `factory(startX)` is
the first statement of the try block, a throw reaches the catch before any
state was touched and the method returns null with the state unchanged.
bounds models the container.getLocalBounds() call (none = it threw, in
which case the code falls back to startX / p.length). The JS fallback
`b.width || p.length` substitutes the nominal length when the bounds width
is zero. Registers, in order: the pattern span (top adjusted down by the
ground thickness), a ground strip collider across the visual width (its
thickness falls back to 8 when the configured thickness is 0, per
`this.groundThickness || 8`), the pattern's pits, and its obstacle
hitboxes placed with their bottom at the pattern's ground top. -/
def addPattern (st : MapState) (factory : ℚ → Option PatternData)
    (bounds : Option Bounds) (startX : ℚ) : Option PatternData × MapState :=
  match factory startX with
  | none => (none, st)
  | some p =>
    let containerY := st.groundY + st.patternYOffset
    let visualStart := match bounds with
      | some b => startX + b.x
      | none => startX
    let visualLength := match bounds with
      | some b => if b.width = 0 then p.length else b.width
      | none => p.length
    let worldGroundTop := containerY
    let topForSurface := worldGroundTop - st.groundThickness
    let span : PatternSpan :=
      { start := visualStart, length := visualLength, top := topForSurface,
        playerYOffset := p.playerYOffset.getD 0 }
    let gcolThickness := if st.groundThickness = 0 then 8 else st.groundThickness
    let groundCol : Obstacle :=
      { x := visualStart, width := visualLength, height := gcolThickness,
        spriteY := worldGroundTop - gcolThickness, isGround := true }
    let newPits := p.pits.map fun pit =>
      ({ x := startX + pit.x, width := pit.width } : Pit)
    let newObstacles := p.obstacles.map fun ob =>
      ({ x := startX + ob.x, width := ob.width, height := ob.height,
         spriteY := worldGroundTop - ob.height, isGround := false } : Obstacle)
    (some p,
      { st with
        patterns := st.patterns ++ [span]
        obstacles := st.obstacles ++ [groundCol] ++ newObstacles
        pits := st.pits ++ newPits })

/-- MapHandler.isOnPattern: worldX is within some registered pattern span
(both interval ends inclusive). -/
def isOnPattern (st : MapState) (worldX : ℚ) : Bool :=
  st.patterns.any fun pat =>
    decide (pat.start ≤ worldX) && decide (worldX ≤ pat.start + pat.length)

/-- MapHandler.getSurfaceYAt: top + playerYOffset of the first pattern span
containing worldX, else the default groundY. -/
def getSurfaceYAt (st : MapState) (worldX : ℚ) : ℚ :=
  match st.patterns.find? (fun pat =>
      decide (pat.start ≤ worldX) && decide (worldX ≤ pat.start + pat.length)) with
  | some pat => pat.top + pat.playerYOffset
  | none => st.groundY

/-- MapHandler.isOverPit: worldX is within some registered pit span. -/
def isOverPit (st : MapState) (worldX : ℚ) : Bool :=
  st.pits.any fun p => decide (p.x ≤ worldX) && decide (worldX ≤ p.x + p.width)

/-- The legacy pit spawner inside MapHandler.update: once scroll reaches
(last pit x - 1600, or 1600 when none), push a pit of width 160 at
scroll + WIDTH*0.8. -/
def spawnPitIfDue (st : MapState) : MapState :=
  let threshold := match st.pits.getLast? with
    | some lastPit => lastPit.x - 1600
    | none => 1600
  if threshold ≤ st.scroll then
    { st with pits := st.pits ++ [{ x := st.scroll + st.WIDTH * (8 / 10), width := 160 }] }
  else st

/-- The legacy random obstacle spawner inside MapHandler.update. r1 r2 r3
are the three Math.random() draws: spawn iff allowRandomObstacles and
r1 < 0.01, at x = scroll + WIDTH*0.9 + r2*120 with size 80 + floor(r3*80),
its sprite placed with bottom at HEIGHT - 120 (no isGround flag). -/
def spawnRandomObstacle (st : MapState) (r1 r2 r3 : ℚ) : MapState :=
  if st.allowRandomObstacles = true ∧ r1 < 1 / 100 then
    let px := st.scroll + st.WIDTH * (9 / 10) + r2 * 120
    let size : ℚ := 80 + (⌊r3 * 80⌋ : ℤ)
    { st with obstacles := st.obstacles ++
        [{ x := px, width := size, height := size,
           spriteY := (st.HEIGHT - 120) - size, isGround := false }] }
  else st

/-- The cleanup while-loop of MapHandler.update: repeatedly shift the head
obstacle while its right edge is strictly behind thr (= scroll - 200),
stopping at the first obstacle whose right edge is at/ahead of thr. -/
def cleanupObstacles (thr : ℚ) : List Obstacle → List Obstacle
  | [] => []
  | o :: rest => if o.x + o.width < thr then cleanupObstacles thr rest else o :: rest

/-- The first two statements of MapHandler.update: speed += speedAccel*dt
and then scroll += (new) speed * dt. -/
def advanceScroll (st : MapState) (dt speedAccel : ℚ) : MapState :=
  { st with speed := st.speed + speedAccel * dt,
            scroll := st.scroll + (st.speed + speedAccel * dt) * dt }

/-- MapHandler.update: accelerate speed by speedAccel*dt, advance scroll by
the new speed times dt, spawn the legacy pit/obstacle, garbage-collect
obstacles behind scroll - 200, and return ((scroll, speed), new state).
Camera offset, background hue and label text are rendering-only. -/
def update (st : MapState) (dt speedAccel r1 r2 r3 : ℚ) : (ℚ × ℚ) × MapState :=
  let st1 := advanceScroll st dt speedAccel
  let st2 := spawnPitIfDue st1
  let st3 := spawnRandomObstacle st2 r1 r2 r3
  let st4 := { st3 with obstacles := cleanupObstacles (st1.scroll - 200) st3.obstacles }
  ((st1.scroll, st1.speed), st4)

/-- MapHandler.reset: zero the scroll, restore the initial speed, clear pits
and obstacles. The source does not touch this.patterns here. -/
def reset (st : MapState) : MapState :=
  { st with scroll := 0, speed := st.baseInitialSpeed, pits := [], obstacles := [] }

end MapHandler

/-! ## Per-tick obstacle landing pass (src/main.ts ticker) -/

/-- The landing condition of the obstacle-interaction pass in the main
ticker: horizontal overlap of the player disc with the obstacle, previous
bottom at or above the obstacle top (non-strict), current bottom at or
below it, and vy >= 0. prevBottom is the bottom captured just before
player.update; p is the post-update player. -/
def obstacleLandingCond (worldX playerRadius prevBottom : ℚ) (p : PlayerState)
    (o : Obstacle) : Prop :=
  o.x < worldX + playerRadius ∧ worldX - playerRadius < o.x + o.width ∧
  prevBottom ≤ o.spriteY ∧ o.spriteY ≤ p.y + playerRadius ∧ 0 ≤ p.vy

instance (worldX playerRadius prevBottom : ℚ) (p : PlayerState) (o : Obstacle) :
    Decidable (obstacleLandingCond worldX playerRadius prevBottom p o) := by
  unfold obstacleLandingCond; infer_instance

/-! ## Distance scoring and power-up tiering (src/main.ts ticker) -/

/-- The distance-based scoring step of the main ticker: newThreshold is
floor(scroll/100); when it exceeds the stored threshold the score gains
15 per crossed 100px unit in one addition, and activatePowerUp is invoked
once iff floor(score'/1000) > floor(score/1000), comparing the pre-tick
score against the post-tick score. Returns (new score, new threshold,
number of power-up activations this tick). -/
def distanceScoringStep (scroll : ℚ) (lastDistanceThreshold score : ℤ) :
    ℤ × ℤ × ℕ :=
  let newThreshold : ℤ := ⌊scroll / 100⌋
  if lastDistanceThreshold < newThreshold then
    let gainedUnits := newThreshold - lastDistanceThreshold
    let prevScore := score
    let score1 := score + gainedUnits * 15
    let prevTier : ℤ := ⌊(prevScore : ℚ) / 1000⌋
    let newTier : ℤ := ⌊(score1 : ℚ) / 1000⌋
    (score1, newThreshold, if prevTier < newTier then 1 else 0)
  else
    (score, lastDistanceThreshold, 0)

/-! ## Concrete states used by counterexamples and witnesses -/

/-- Default character configuration of createCharacter (jumpSpeed 2000,
gravity 3000) with a 30px radius. -/
def cfg0 : CharacterConfig := { jumpSpeed := 2000, gravity := 3000, playerRadius := 30 }

/-- A freshly created grounded player on the default ground (groundY 480,
radius 30), as initialised by createCharacter. -/
def groundedPlayer : PlayerState :=
  { worldX := 0, y := 450, vy := 0, onGround := true, jumpsLeft := 2, maxJumps := 2,
    holdingJump := false, jumpHoldTime := 0, maxJumpHoldTime := 1 / 4 }

/-- A descending airborne player just above the default ground. -/
def fallingPlayer : PlayerState :=
  { worldX := 0, y := 449, vy := 100, onGround := false, jumpsLeft := 2, maxJumps := 2,
    holdingJump := false, jumpHoldTime := 0, maxJumpHoldTime := 1 / 4 }

/-- A fresh MapHandler for an 800x600 viewport with all defaults. -/
def initialMap : MapState := MapHandler.init 800 600 none none none none

/-- A plain-ground PatternData: length 900, no pits, no obstacles. -/
def pd900 : PatternData :=
  { length := 900, nextStartOffset := 80, pits := [], obstacles := [],
    playerYOffset := none }

/-- A plain-ground pattern factory: length 900, no pits, no obstacles. -/
def fac900 : ℚ → Option PatternData := fun _ => some pd900

/-- A 100px plain pattern factory. -/
def fac100 : ℚ → Option PatternData := fun _ =>
  some { length := 100, nextStartOffset := 0, pits := [], obstacles := [],
         playerYOffset := none }

/-- A 50px plain pattern factory. -/
def fac50 : ℚ → Option PatternData := fun _ =>
  some { length := 50, nextStartOffset := 0, pits := [], obstacles := [],
         playerYOffset := none }

/-- A pattern factory declaring a pit at local x 30, width 160. -/
def facWithPit : ℚ → Option PatternData := fun _ =>
  some { length := 900, nextStartOffset := 80, pits := [{ x := 30, width := 160 }],
         obstacles := [], playerYOffset := none }

/-- State after placing one 900px pattern at 0 and calling reset(). -/
def stAfterReset : MapState :=
  MapHandler.reset
    (MapHandler.addPattern initialMap fac900 (some { x := 0, width := 900 }) 0).2

/-- State after placing a 900px pattern at startX 100 whose container local
bounds report x = 5 and width = 0 (an empty visual container). -/
def stZeroBounds : MapState :=
  (MapHandler.addPattern initialMap fac900 (some { x := 5, width := 0 }) 100).2

/-- State with colliders registered out of left-to-right order: a pattern
at startX 10000 placed before a pattern at startX 0. -/
def stOutOfOrder : MapState :=
  (MapHandler.addPattern
    (MapHandler.addPattern initialMap fac100 (some { x := 0, width := 100 }) 10000).2
    fac50 (some { x := 0, width := 50 }) 0).2

/-- The ground collider the second (left) pattern of stOutOfOrder registers:
visual span [0, 50], thickness 8, sprite top at 480 - 8 = 472. -/
def staleCollider : Obstacle :=
  { x := 0, width := 50, height := 8, spriteY := 472, isGround := true }

/-- State after placing facWithPit at 0: pattern span [0, 900] with a world
pit at [30, 190] carved inside it. -/
def pitDemoState : MapState :=
  (MapHandler.addPattern initialMap facWithPit (some { x := 0, width := 900 }) 0).2

/-- pitDemoState with its pattern spans and colliders stripped, keeping the
same pit list (used to exhibit pit-test independence). -/
def pitOnlyState : MapState :=
  { pitDemoState with patterns := [], obstacles := [] }

/-- A wide ground collider whose top sits at the demo surface y 480. -/
def restDemoCollider : Obstacle :=
  { x := -100, width := 1000, height := 8, spriteY := 480, isGround := true }

/-! ## Helper lemmas -/

/-- Unfolding equation for Player.update. -/
theorem player_update_eq (cfg : CharacterConfig) (p : PlayerState) (dt surfaceY : ℚ) :
    Player.update cfg p dt surfaceY =
      if p.y < surfaceY - cfg.playerRadius ∧
          surfaceY - cfg.playerRadius ≤ p.y + Player.integVy cfg p dt * dt ∧
          0 ≤ Player.integVy cfg p dt then
        { p with y := surfaceY - cfg.playerRadius, vy := 0, onGround := true,
                 jumpsLeft := p.maxJumps,
                 jumpHoldTime :=
                   if Player.holdActive p then p.jumpHoldTime + dt else p.jumpHoldTime }
      else
        { p with y := p.y + Player.integVy cfg p dt * dt,
                 vy := Player.integVy cfg p dt, onGround := false,
                 jumpHoldTime :=
                   if Player.holdActive p then p.jumpHoldTime + dt else p.jumpHoldTime } :=
  rfl

/-- isOnPattern membership characterisation. -/
theorem isOnPattern_iff_exists (st : MapState) (x : ℚ) :
    MapHandler.isOnPattern st x = true ↔
      ∃ pat ∈ st.patterns, pat.start ≤ x ∧ x ≤ pat.start + pat.length := by
  simp [MapHandler.isOnPattern, List.any_eq_true]

/-- isOverPit membership characterisation. -/
theorem isOverPit_iff_exists (st : MapState) (x : ℚ) :
    MapHandler.isOverPit st x = true ↔
      ∃ p ∈ st.pits, p.x ≤ x ∧ x ≤ p.x + p.width := by
  simp [MapHandler.isOverPit, List.any_eq_true]

/-- The cleanup loop returns a suffix of its input. -/
theorem cleanupObstacles_isSuffix (thr : ℚ) (l : List Obstacle) :
    List.IsSuffix (MapHandler.cleanupObstacles thr l) l := by
  induction l with
  | nil => exact List.suffix_refl _
  | cons o rest ih =>
    unfold MapHandler.cleanupObstacles
    split
    · exact ih.trans (List.suffix_cons o rest)
    · exact List.suffix_refl _

/-- Every obstacle dropped by the cleanup loop had its right edge strictly
behind the threshold. -/
theorem cleanupObstacles_dropped (thr : ℚ) (l : List Obstacle) (o : Obstacle)
    (ho : o ∈ l) (hno : o ∉ MapHandler.cleanupObstacles thr l) :
    o.x + o.width < thr := by
  induction l with
  | nil => cases ho
  | cons a rest ih =>
    unfold MapHandler.cleanupObstacles at hno
    by_cases ha : a.x + a.width < thr
    · rw [if_pos ha] at hno
      rcases List.mem_cons.mp ho with h | h
      · rw [h]; exact ha
      · exact ih h hno
    · rw [if_neg ha] at hno
      exact absurd ho hno

/-- The head obstacle surviving the cleanup loop has its right edge at or
ahead of the threshold. -/
theorem cleanupObstacles_head (thr : ℚ) (l : List Obstacle) (o : Obstacle)
    (h : (MapHandler.cleanupObstacles thr l).head? = some o) :
    thr ≤ o.x + o.width := by
  induction l with
  | nil => simp [MapHandler.cleanupObstacles] at h
  | cons a rest ih =>
    unfold MapHandler.cleanupObstacles at h
    by_cases ha : a.x + a.width < thr
    · rw [if_pos ha] at h; exact ih h
    · rw [if_neg ha] at h
      simp only [List.head?_cons, Option.some.injEq] at h
      rw [← h]
      exact le_of_not_lt ha

/-- spawnPitIfDue leaves scroll, speed and obstacles unchanged. -/
theorem spawnPitIfDue_preserves (st : MapState) :
    (MapHandler.spawnPitIfDue st).scroll = st.scroll ∧
    (MapHandler.spawnPitIfDue st).speed = st.speed ∧
    (MapHandler.spawnPitIfDue st).obstacles = st.obstacles := by
  unfold MapHandler.spawnPitIfDue
  split <;> (dsimp only; split <;> exact ⟨rfl, rfl, rfl⟩)

/-- spawnRandomObstacle leaves scroll and speed unchanged. -/
theorem spawnRandomObstacle_preserves (st : MapState) (r1 r2 r3 : ℚ) :
    (MapHandler.spawnRandomObstacle st r1 r2 r3).scroll = st.scroll ∧
    (MapHandler.spawnRandomObstacle st r1 r2 r3).speed = st.speed := by
  unfold MapHandler.spawnRandomObstacle
  split <;> exact ⟨rfl, rfl⟩

/-! ## Claim theorems -/

/-- C1: Player.update lands the player (y snapped to surfaceY minus the
player radius, vy set to 0, onGround true, jumpsLeft reset to maxJumps)
if and only if the pre-integration y was strictly above the surface top,
the post-integration y is at or below it, and the velocity at the landing
test (the post-gravity velocity) is non-negative; in particular a player
whose y is already at or below the surface top before the update is never
snapped upward, for any dt and any surface query result. -/
theorem player_update_landing_iff (cfg : CharacterConfig) (p : PlayerState)
    (dt surfaceY : ℚ) :
    ((Player.update cfg p dt surfaceY).onGround = true ↔
      (p.y < surfaceY - cfg.playerRadius ∧
       surfaceY - cfg.playerRadius ≤ p.y + Player.integVy cfg p dt * dt ∧
       0 ≤ Player.integVy cfg p dt)) ∧
    ((Player.update cfg p dt surfaceY).onGround = true →
      (Player.update cfg p dt surfaceY).y = surfaceY - cfg.playerRadius ∧
      (Player.update cfg p dt surfaceY).vy = 0 ∧
      (Player.update cfg p dt surfaceY).jumpsLeft = p.maxJumps) ∧
    (surfaceY - cfg.playerRadius ≤ p.y →
      (Player.update cfg p dt surfaceY).onGround = false ∧
      (Player.update cfg p dt surfaceY).y = p.y + Player.integVy cfg p dt * dt) := by
  unfold Player.update
  by_cases h : p.y < surfaceY - cfg.playerRadius ∧
      surfaceY - cfg.playerRadius ≤ p.y + Player.integVy cfg p dt * dt ∧
      0 ≤ Player.integVy cfg p dt
  · rw [if_pos h]
    exact ⟨iff_of_true rfl h, fun _ => ⟨rfl, rfl, rfl⟩,
      fun hge => absurd h.1 (not_lt.mpr hge)⟩
  · rw [if_neg h]
    exact ⟨iff_of_false (Bool.false_ne_true) h, fun hc => absurd hc Bool.false_ne_true,
      fun _ => ⟨rfl, rfl⟩⟩

/-- C1 witness: a concrete descending player crossing the default surface
from above is landed by Player.update. -/
theorem player_update_landing_iff_witness :
    (Player.update cfg0 fallingPlayer (1 / 10) 480).onGround = true :=
  (player_update_landing_iff cfg0 fallingPlayer (1 / 10) 480).1.mpr (by decide!)

/-- C2 (code behaviour at the claim's scenario): starting grounded with
maxJumps = 2 and jumpsLeft = 2, the ground jump itself already consumes a
jump (the source tests !this.onGround after assigning onGround = false, so
the mid-air-consumption branch fires on every jump), leaving jumpsLeft = 1;
the first airborne jump input succeeds and drives jumpsLeft to 0, and the
second airborne jump input already fails — contradicting the claimed
budget of two successful airborne jumps after a free ground jump. -/
theorem ground_jump_consumes_air_jump_budget :
    (Player.jump cfg0 groundedPlayer).1 = true ∧
    (Player.jump cfg0 groundedPlayer).2.jumpsLeft = 1 ∧
    (Player.jump cfg0 (Player.jump cfg0 groundedPlayer).2).1 = true ∧
    (Player.jump cfg0 (Player.jump cfg0 groundedPlayer).2).2.jumpsLeft = 0 ∧
    (Player.jump cfg0
      (Player.jump cfg0 (Player.jump cfg0 groundedPlayer).2).2).1 = false := by
  decide

/-- C3 counterexample: after placing one pattern and calling reset(), the
placed-pattern span list is not empty and isOnPattern still reports true
inside the old span, refuting the claim that reset empties it. -/
theorem reset_keeps_pattern_span_list :
    stAfterReset.patterns ≠ [] ∧
    MapHandler.isOnPattern stAfterReset 100 = true := by
  decide!

/-- C3 amended: reset() zeroes the scroll, restores the configured initial
speed, clears the pit list and the collider list, but leaves the
placed-pattern span list unchanged. -/
theorem reset_clears_scroll_speed_pits_obstacles (st : MapState) :
    (MapHandler.reset st).scroll = 0 ∧
    (MapHandler.reset st).speed = st.baseInitialSpeed ∧
    (MapHandler.reset st).pits = [] ∧
    (MapHandler.reset st).obstacles = [] ∧
    (MapHandler.reset st).patterns = st.patterns :=
  ⟨rfl, rfl, rfl, rfl, rfl⟩

/-- C4: when the factory throws (modelled as returning none), addPattern
returns the null sentinel and the manager state is entirely unchanged: no
pattern span, no collider and no pit is registered. -/
theorem addPattern_throwing_factory_leaves_state (st : MapState)
    (factory : ℚ → Option PatternData) (bounds : Option Bounds) (startX : ℚ)
    (h : factory startX = none) :
    MapHandler.addPattern st factory bounds startX = (none, st) := by
  unfold MapHandler.addPattern
  rw [h]

/-- C4 witness: a concrete always-throwing factory applied to the fresh
manager registers nothing. -/
theorem addPattern_throwing_factory_leaves_state_witness :
    ((fun _ : ℚ => (none : Option PatternData)) 0 = none) ∧
    MapHandler.addPattern initialMap (fun _ => none) none 0 = (none, initialMap) :=
  ⟨rfl, addPattern_throwing_factory_leaves_state initialMap (fun _ => none) none 0 rfl⟩

/-- C5 counterexample: a successfully placed pattern whose container local
bounds report width 0 (an empty container) and whose nominal length is 900.
The claim's interval, built from the local-bounds width, is the single
point 105, yet isOnPattern is true at 555 — strictly outside it — even
though this is the only placed pattern: the source substitutes the nominal
length for a zero bounds width (b.width || p.length). -/
theorem isOnPattern_true_outside_zero_width_bounds :
    stZeroBounds.patterns.length = 1 ∧
    (100 + (5 : ℚ)) + 0 < 555 ∧
    MapHandler.isOnPattern stZeroBounds 555 = true := by
  decide!

/-- C5 amended: for every successfully placed pattern, with the registered
visual length being the container's local-bounds width when it is nonzero
and the pattern's nominal length otherwise, isOnPattern is true on the
whole closed interval from visualStart to visualStart plus that length;
and when the placed pattern is the only one, isOnPattern is true exactly
on that interval. -/
theorem addPattern_span_matches_registered_bounds (st : MapState)
    (factory : ℚ → Option PatternData) (p : PatternData) (b : Bounds)
    (startX x : ℚ) (hf : factory startX = some p) :
    ((startX + b.x ≤ x ∧
        x ≤ startX + b.x + (if b.width = 0 then p.length else b.width)) →
      MapHandler.isOnPattern
        (MapHandler.addPattern st factory (some b) startX).2 x = true) ∧
    (st.patterns = [] →
      (MapHandler.isOnPattern
          (MapHandler.addPattern st factory (some b) startX).2 x = true ↔
        (startX + b.x ≤ x ∧
          x ≤ startX + b.x + (if b.width = 0 then p.length else b.width)))) := by
  have hpat : (MapHandler.addPattern st factory (some b) startX).2.patterns
      = st.patterns ++
        [{ start := startX + b.x,
           length := if b.width = 0 then p.length else b.width,
           top := st.groundY + st.patternYOffset - st.groundThickness,
           playerYOffset := p.playerYOffset.getD 0 }] := by
    unfold MapHandler.addPattern
    rw [hf]
  constructor
  · rintro ⟨h1, h2⟩
    rw [isOnPattern_iff_exists, hpat]
    exact ⟨_, List.mem_append_right _ (List.mem_singleton.mpr rfl), h1, h2⟩
  · intro hempty
    rw [isOnPattern_iff_exists, hpat, hempty]
    simp

/-- C5 witness: the amended span test at a concrete placement. -/
theorem addPattern_span_matches_registered_bounds_witness :
    (fac900 0 = some pd900) ∧
    MapHandler.isOnPattern
      (MapHandler.addPattern initialMap fac900
        (some { x := 0, width := 900 }) 0).2 450 = true :=
  ⟨rfl,
    (addPattern_span_matches_registered_bounds initialMap fac900 pd900
      { x := 0, width := 900 } 0 450 rfl).1 (by decide!)⟩

/-- C6 counterexample: with colliders registered out of left-to-right order
(spans at 10000 and then at 0), an update advancing the scroll to 800
keeps the collider with right edge 50, although 50 is behind the removal
threshold 600 — the while loop stops at the front collider, which is still
ahead — refuting position-only removal. -/
theorem update_keeps_stale_collider_behind_threshold :
    staleCollider ∈ (MapHandler.update stOutOfOrder 4 0 1 0 0).2.obstacles ∧
    staleCollider.x + staleCollider.width
      < (MapHandler.update stOutOfOrder 4 0 1 0 0).2.scroll - 200 := by
  decide!

/-- C6 amended: update's collider garbage collection removes exactly a
front run of the obstacle list: the surviving list is a suffix of the
post-spawn list, every removed collider's right edge is strictly behind
the new scroll minus 200, and the surviving head (when one exists) has its
right edge at or ahead of that threshold — so no collider at or ahead of
the threshold is ever removed, but a behind-threshold collider that sits
after a retained one is kept. -/
theorem update_gc_removes_front_run_by_position (st : MapState)
    (dt speedAccel r1 r2 r3 : ℚ) :
    List.IsSuffix (MapHandler.update st dt speedAccel r1 r2 r3).2.obstacles
      (MapHandler.spawnRandomObstacle
        (MapHandler.spawnPitIfDue (MapHandler.advanceScroll st dt speedAccel))
        r1 r2 r3).obstacles ∧
    (∀ o ∈ (MapHandler.spawnRandomObstacle
        (MapHandler.spawnPitIfDue (MapHandler.advanceScroll st dt speedAccel))
        r1 r2 r3).obstacles,
      o ∉ (MapHandler.update st dt speedAccel r1 r2 r3).2.obstacles →
      o.x + o.width < (MapHandler.update st dt speedAccel r1 r2 r3).2.scroll - 200) ∧
    (∀ o, ((MapHandler.update st dt speedAccel r1 r2 r3).2.obstacles).head? = some o →
      (MapHandler.update st dt speedAccel r1 r2 r3).2.scroll - 200 ≤ o.x + o.width) := by
  have hobs : (MapHandler.update st dt speedAccel r1 r2 r3).2.obstacles
      = MapHandler.cleanupObstacles
          ((MapHandler.advanceScroll st dt speedAccel).scroll - 200)
          (MapHandler.spawnRandomObstacle
            (MapHandler.spawnPitIfDue (MapHandler.advanceScroll st dt speedAccel))
            r1 r2 r3).obstacles := rfl
  have hscroll : (MapHandler.update st dt speedAccel r1 r2 r3).2.scroll
      = (MapHandler.advanceScroll st dt speedAccel).scroll := by
    show (MapHandler.spawnRandomObstacle
        (MapHandler.spawnPitIfDue (MapHandler.advanceScroll st dt speedAccel))
        r1 r2 r3).scroll = _
    rw [(spawnRandomObstacle_preserves _ r1 r2 r3).1, (spawnPitIfDue_preserves _).1]
  refine ⟨?_, ?_, ?_⟩
  · rw [hobs]; exact cleanupObstacles_isSuffix _ _
  · intro o ho hno
    rw [hobs] at hno
    rw [hscroll]
    exact cleanupObstacles_dropped _ _ o ho hno
  · intro o h
    rw [hobs] at h
    rw [hscroll]
    exact cleanupObstacles_head _ _ o h

/-- C7 counterexample: from the fresh manager (speed 200, scroll 0), an
update with dt = 1 and speedAccel = 8 returns scroll 208, not the
pre-call-speed advance 0 + 200*1 = 200: the source accelerates the speed
before advancing the scroll with it. -/
theorem update_scroll_uses_post_accel_speed :
    (MapHandler.update initialMap 1 8 1 0 0).1.1
      ≠ initialMap.scroll + initialMap.speed * 1 := by
  decide!

/-- C7 amended: update returns speed = pre speed + speedAccel*dt, and
scroll = pre scroll + (pre speed + speedAccel*dt)*dt — the scroll advances
by the post-acceleration speed, not the pre-call speed; the returned pair
equals the stored state, and with dt >= 0, speedAccel >= 0 the speed never
decreases, and the scroll never decreases whenever the pre-call speed is
non-negative (it always is: speed starts at the positive initial speed and
never decreases), with no cap applied to the speed. -/
theorem update_speed_accel_before_scroll (st : MapState)
    (dt speedAccel r1 r2 r3 : ℚ) :
    (MapHandler.update st dt speedAccel r1 r2 r3).1.2 = st.speed + speedAccel * dt ∧
    (MapHandler.update st dt speedAccel r1 r2 r3).1.1
      = st.scroll + (st.speed + speedAccel * dt) * dt ∧
    (MapHandler.update st dt speedAccel r1 r2 r3).2.speed
      = (MapHandler.update st dt speedAccel r1 r2 r3).1.2 ∧
    (MapHandler.update st dt speedAccel r1 r2 r3).2.scroll
      = (MapHandler.update st dt speedAccel r1 r2 r3).1.1 ∧
    (0 ≤ dt → 0 ≤ speedAccel →
      st.speed ≤ (MapHandler.update st dt speedAccel r1 r2 r3).1.2 ∧
      (0 ≤ st.speed →
        st.scroll ≤ (MapHandler.update st dt speedAccel r1 r2 r3).1.1)) := by
  refine ⟨rfl, rfl, ?_, ?_, ?_⟩
  · show (MapHandler.spawnRandomObstacle
        (MapHandler.spawnPitIfDue (MapHandler.advanceScroll st dt speedAccel))
        r1 r2 r3).speed = _
    rw [(spawnRandomObstacle_preserves _ r1 r2 r3).2, (spawnPitIfDue_preserves _).2.1]
    rfl
  · show (MapHandler.spawnRandomObstacle
        (MapHandler.spawnPitIfDue (MapHandler.advanceScroll st dt speedAccel))
        r1 r2 r3).scroll = _
    rw [(spawnRandomObstacle_preserves _ r1 r2 r3).1, (spawnPitIfDue_preserves _).1]
    rfl
  · intro hdt hacc
    have hprod : 0 ≤ speedAccel * dt := mul_nonneg hacc hdt
    constructor
    · show st.speed ≤ st.speed + speedAccel * dt
      linarith
    · intro hsp
      show st.scroll ≤ st.scroll + (st.speed + speedAccel * dt) * dt
      have : 0 ≤ (st.speed + speedAccel * dt) * dt := mul_nonneg (by linarith) hdt
      linarith

/-- C8: isOverPit is true exactly when worldX lies in some registered pit's
closed span; it depends only on the pit list (two states with the same pit
list agree everywhere); and at a concrete reachable state a worldX is
simultaneously on a pattern and over a pit — also after stripping the
pattern spans and colliders, confirming independence from them. -/
theorem isOverPit_depends_only_on_pits :
    (∀ (st : MapState) (x : ℚ), MapHandler.isOverPit st x = true ↔
        ∃ p ∈ st.pits, p.x ≤ x ∧ x ≤ p.x + p.width) ∧
    (∀ (s1 s2 : MapState) (x : ℚ), s1.pits = s2.pits →
        MapHandler.isOverPit s1 x = MapHandler.isOverPit s2 x) ∧
    (MapHandler.isOnPattern pitDemoState 150 = true ∧
      MapHandler.isOverPit pitDemoState 150 = true ∧
      MapHandler.isOverPit pitOnlyState 150 = true) := by
  refine ⟨isOverPit_iff_exists, ?_, by decide!⟩
  intro s1 s2 x h
  unfold MapHandler.isOverPit
  rw [h]

/-- C9: when one tick's distance-scoring step raises the score from below
1000 to a value in [1000, 2000), exactly one power-up activation fires —
the 1000-point tier comparison of the pre-tick score against the post-tick
score runs once per tick, not once per crossed 100px threshold. -/
theorem distance_tier_crossing_single_activation (scroll : ℚ) (lt score : ℤ)
    (hpre : score < 1000)
    (hlo : 1000 ≤ (distanceScoringStep scroll lt score).1)
    (hhi : (distanceScoringStep scroll lt score).1 < 2000) :
    (distanceScoringStep scroll lt score).2.2 = 1 := by
  unfold distanceScoringStep at hlo hhi ⊢
  by_cases hb : lt < ⌊scroll / 100⌋
  · rw [if_pos hb] at hlo hhi ⊢
    dsimp only at hlo hhi ⊢
    have h1 : ⌊(score : ℚ) / 1000⌋ < 1 := by
      rw [Int.floor_lt]
      push_cast
      rw [div_lt_one (by norm_num : (0:ℚ) < 1000)]
      exact_mod_cast hpre
    have h2 : (1 : ℤ) ≤ ⌊((score + (⌊scroll / 100⌋ - lt) * 15 : ℤ) : ℚ) / 1000⌋ := by
      rw [Int.le_floor]
      push_cast
      rw [le_div_iff₀ (by norm_num : (0:ℚ) < 1000), one_mul]
      exact_mod_cast hlo
    rw [if_pos (lt_of_lt_of_le h1 h2)]
  · rw [if_neg hb] at hlo
    dsimp only at hlo
    omega

/-- C9 witness: a tick advancing the distance threshold from 0 to 2 lifts
the score from 990 to 1020 and fires exactly one activation. -/
theorem distance_tier_crossing_single_activation_witness :
    (990 : ℤ) < 1000 ∧
    1000 ≤ (distanceScoringStep 200 0 990).1 ∧
    (distanceScoringStep 200 0 990).1 < 2000 ∧
    (distanceScoringStep 200 0 990).2.2 = 1 :=
  ⟨by decide, by decide!, by decide!,
    distance_tier_crossing_single_activation 200 0 990 (by decide) (by decide!)
      (by decide!)⟩

/-- C10: a player resting exactly on the surface (y = surfaceY - radius,
vy = 0) is un-grounded by a single Player.update with dt > 0 — the strict
previous-y test never re-confirms contact — and ends strictly below the
surface top; the separate per-tick obstacle landing pass, whose
previous-bottom comparison is non-strict, does fire at that state for a
ground collider whose top sits at the surface and which overlaps the
player horizontally. -/
theorem at_rest_update_ungrounds_then_collider_pass_lands
    (cfg : CharacterConfig) (p : PlayerState) (dt surfaceY worldX : ℚ)
    (o : Obstacle)
    (hdt : 0 < dt) (hg : 0 < cfg.gravity)
    (hy : p.y = surfaceY - cfg.playerRadius) (hvy : p.vy = 0)
    (htop : o.spriteY = surfaceY)
    (hleft : o.x < worldX + cfg.playerRadius)
    (hright : worldX - cfg.playerRadius < o.x + o.width) :
    (Player.update cfg p dt surfaceY).onGround = false ∧
    surfaceY - cfg.playerRadius < (Player.update cfg p dt surfaceY).y ∧
    obstacleLandingCond worldX cfg.playerRadius (p.y + cfg.playerRadius)
      (Player.update cfg p dt surfaceY) o := by
  have hhold : ¬ Player.holdActive p := by
    unfold Player.holdActive
    rw [hvy]
    simp
  have hvy1 : Player.integVy cfg p dt = cfg.gravity * dt := by
    unfold Player.integVy
    rw [if_neg hhold, hvy, zero_add]
  have hcond : ¬ (p.y < surfaceY - cfg.playerRadius ∧
      surfaceY - cfg.playerRadius ≤ p.y + Player.integVy cfg p dt * dt ∧
      0 ≤ Player.integVy cfg p dt) := by
    rintro ⟨h1, -, -⟩
    rw [hy] at h1
    exact lt_irrefl _ h1
  rw [player_update_eq, if_neg hcond]
  have hpos : 0 < cfg.gravity * dt * dt := mul_pos (mul_pos hg hdt) hdt
  refine ⟨rfl, ?_, hleft, hright, ?_, ?_, ?_⟩
  · show surfaceY - cfg.playerRadius < p.y + Player.integVy cfg p dt * dt
    rw [hvy1, hy]
    linarith
  · show p.y + cfg.playerRadius ≤ o.spriteY
    rw [hy, htop]
    linarith
  · show o.spriteY ≤ (p.y + Player.integVy cfg p dt * dt) + cfg.playerRadius
    rw [hvy1, hy, htop]
    linarith
  · show (0 : ℚ) ≤ Player.integVy cfg p dt
    rw [hvy1]
    exact le_of_lt (mul_pos hg hdt)

/-- C10 witness: the freshly created grounded player at rest on the default
surface 480, against a wide ground collider topped at 480, with dt = 1/60. -/
theorem at_rest_update_ungrounds_then_collider_pass_lands_witness :
    (0 : ℚ) < 1 / 60 ∧ (0 : ℚ) < cfg0.gravity ∧
    groundedPlayer.y = 480 - cfg0.playerRadius ∧ groundedPlayer.vy = 0 ∧
    restDemoCollider.spriteY = 480 ∧
    restDemoCollider.x < 0 + cfg0.playerRadius ∧
    (0 : ℚ) - cfg0.playerRadius < restDemoCollider.x + restDemoCollider.width ∧
    ((Player.update cfg0 groundedPlayer (1 / 60) 480).onGround = false ∧
      480 - cfg0.playerRadius < (Player.update cfg0 groundedPlayer (1 / 60) 480).y ∧
      obstacleLandingCond 0 cfg0.playerRadius (groundedPlayer.y + cfg0.playerRadius)
        (Player.update cfg0 groundedPlayer (1 / 60) 480) restDemoCollider) :=
  ⟨by decide!, by decide!, by decide!, by decide!, by decide!, by decide!, by decide!,
    at_rest_update_ungrounds_then_collider_pass_lands cfg0 groundedPlayer (1 / 60)
      480 0 restDemoCollider (by decide!) (by decide!) (by decide!) (by decide!)
      (by decide!) (by decide!) (by decide!)⟩

end RunningChicken
